import Mathlib

/-!
Verification of the wallholla helper library against its specification.

The development shallowly embeds the two source modules:
  * `utils.py` — optimiser / pretrained-backbone / image-generator selection,
    cache-file naming, and the pretrained-feature cache (`make_pretrained_weights`
    and `get_pretrained_weights`).  File-system effects are made explicit by
    threading a state (`St`) holding an association-list file system together
    with a log of the `np.save` calls and a counter of the
    `make_pretrained_weights` invocations.
  * `walholla/models.py` — `resnet_model` and `custom_fc_model`, embedded as
    builders of layer lists.

Python numbers are modelled as `Nat`/`Int`/`ℚ`; raising an exception is
modelled with `Except PyErr`.  Numpy arrays are modelled by their provenance
(`NpArr`), which determines the shape where the code determines it.
-/

/-- Python exceptions raised by the embedded code. -/
inductive PyErr where
  | valueError : String → PyErr
  | typeError : String → PyErr
  | ioError : String → PyErr
deriving DecidableEq, Repr

/-- Keras optimiser objects produced by `make_optimiser` (`utils.py` lines 38-42);
only the constructor and learning rate are observable in this repository. -/
inductive Optimiser where
  | Adam : ℚ → Optimiser
  | RMSprop : ℚ → Optimiser
  | SGD : ℚ → Optimiser
deriving DecidableEq, Repr

/-- Embedding of `make_optimiser` (`utils.py` lines 28-44): whitelist check, then a dict of the
three optimisers indexed by `name`.  Extra keyword arguments are not modelled. -/
def make_optimiser (name : String) (learning_rate : ℚ) : Except PyErr Optimiser :=
  if name ∉ ["adam", "rsmprop", "sgd"] then
    Except.error (PyErr.valueError "name needs to be either adam, rsmprop or sgd")
  else
    let optimizers : List (String × Optimiser) :=
      [("adam", Optimiser.Adam learning_rate),
       ("rsmprop", Optimiser.RMSprop learning_rate),
       ("sgd", Optimiser.SGD learning_rate)]
    match optimizers.lookup name with
    | some o => Except.ok o
    | none => Except.error (PyErr.valueError "KeyError")

/-- Pretrained keras application networks built by `get_pretrained_model`
(`utils.py` lines 58-63); each records the `input_shape` it was built with. -/
inductive PretrainedNet where
  | VGG16 : List Nat → PretrainedNet
  | VGG19 : List Nat → PretrainedNet
  | MobileNet : List Nat → PretrainedNet
  | Xception : List Nat → PretrainedNet
deriving DecidableEq, Repr

/-- Embedding of `get_pretrained_model` (`utils.py` lines 47-64).  `channels_first` stands for
`K.image_data_format() == 'channels_first'`; `img_size` is the `(width, height)`
pair the caller supplies. -/
def get_pretrained_model (model : String) (img_size : Nat × Nat) (channels_first : Bool) :
    Except PyErr PretrainedNet :=
  if model ∉ ["vgg16", "vgg19", "mobilenet", "xception"] then
    Except.error (PyErr.valueError "model needs to be either vgg16, vgg19, mobilenet, xception")
  else
    let width := img_size.1
    let height := img_size.2
    let input_shape := if channels_first then [3, width, height] else [width, height, 3]
    let models : List (String × PretrainedNet) :=
      [("vgg16", PretrainedNet.VGG16 input_shape),
       ("vgg19", PretrainedNet.VGG19 input_shape),
       ("mobilenet", PretrainedNet.MobileNet input_shape),
       ("xception", PretrainedNet.Xception input_shape)]
    match models.lookup model with
    | some m => Except.ok m
    | none => Except.error (PyErr.valueError "KeyError")

/-- The observable configuration of a keras `ImageDataGenerator`; fields that a
call site does not set keep the keras defaults (`0` ranges, no flip). -/
structure ImageDataGenerator where
  rescale : ℚ
  shear_range : ℚ
  zoom_range : ℚ
  horizontal_flip : Bool
deriving DecidableEq, Repr

/-- Embedding of `get_image_generator` (`utils.py` lines 67-83).  The Python function falls
through to an implicit `return None` if none of the three branches fires (dead
code given the whitelist check), hence the `Option`. -/
def get_image_generator (kind : String) : Except PyErr (Option ImageDataGenerator) :=
  if kind ∉ ["random", "very-random", "not-random"] then
    Except.error (PyErr.valueError "kind needs to be in random, very-random, not-random")
  else if kind == "not-random" then
    Except.ok (some { rescale := 1/255, shear_range := 0, zoom_range := 0,
                      horizontal_flip := false })
  else if kind == "random" then
    Except.ok (some { rescale := 1/255, shear_range := 1/10, zoom_range := 1/10,
                      horizontal_flip := false })
  else if kind == "very-random" then
    Except.ok (some { rescale := 1/255, shear_range := 1/5, zoom_range := 1/5,
                      horizontal_flip := true })
  else
    Except.ok none

/-- C5: each configuration lookup raises `ValueError` exactly when its name
argument falls outside its whitelist and returns a non-`None` object for every
whitelisted name; in particular `make_optimiser` rejects the conventional
spelling `rmsprop` while accepting the misspelling `rsmprop`. -/
theorem config_lookup_whitelists (name : String) (lr : ℚ) (sz : Nat × Nat) (cf : Bool) :
    ((make_optimiser name lr).isOk = true ↔ name ∈ ["adam", "rsmprop", "sgd"]) ∧
    ((∃ m, make_optimiser name lr = Except.error (PyErr.valueError m)) ↔
      name ∉ ["adam", "rsmprop", "sgd"]) ∧
    ((get_pretrained_model name sz cf).isOk = true ↔
      name ∈ ["vgg16", "vgg19", "mobilenet", "xception"]) ∧
    ((∃ m, get_pretrained_model name sz cf = Except.error (PyErr.valueError m)) ↔
      name ∉ ["vgg16", "vgg19", "mobilenet", "xception"]) ∧
    ((∃ g, get_image_generator name = Except.ok (some g)) ↔
      name ∈ ["random", "very-random", "not-random"]) ∧
    ((∃ m, get_image_generator name = Except.error (PyErr.valueError m)) ↔
      name ∉ ["random", "very-random", "not-random"]) ∧
    (∃ m, make_optimiser "rmsprop" lr = Except.error (PyErr.valueError m)) ∧
    (make_optimiser "rsmprop" lr).isOk = true := by
  refine ⟨?_, ?_, ?_, ?_, ?_, ?_, ⟨_, rfl⟩, rfl⟩
  · constructor
    · intro h
      by_contra hn
      simp [make_optimiser, hn, Except.isOk, Except.toBool] at h
    · intro h
      simp only [List.mem_cons, List.not_mem_nil, or_false] at h
      rcases h with h | h | h <;> subst h <;> rfl
  · constructor
    · intro ⟨m, hm⟩
      intro hmem
      simp only [List.mem_cons, List.not_mem_nil, or_false] at hmem
      rcases hmem with h | h | h <;> subst h <;> exact Except.noConfusion hm
    · intro hn
      exact ⟨"name needs to be either adam, rsmprop or sgd", by simp [make_optimiser, hn]⟩
  · constructor
    · intro h
      by_contra hn
      simp [get_pretrained_model, hn, Except.isOk, Except.toBool] at h
    · intro h
      simp only [List.mem_cons, List.not_mem_nil, or_false] at h
      rcases h with h | h | h | h <;> subst h <;> rfl
  · constructor
    · intro ⟨m, hm⟩
      intro hmem
      simp only [List.mem_cons, List.not_mem_nil, or_false] at hmem
      rcases hmem with h | h | h | h <;> subst h <;> exact Except.noConfusion hm
    · intro hn
      exact ⟨"model needs to be either vgg16, vgg19, mobilenet, xception",
        by simp [get_pretrained_model, hn]⟩
  · constructor
    · intro ⟨g, hg⟩
      by_contra hn
      simp [get_image_generator, hn] at hg
    · intro h
      simp only [List.mem_cons, List.not_mem_nil, or_false] at h
      rcases h with h | h | h <;> subst h <;> exact ⟨_, rfl⟩
  · constructor
    · intro ⟨m, hm⟩
      intro hmem
      simp only [List.mem_cons, List.not_mem_nil, or_false] at hmem
      rcases hmem with h | h | h <;> subst h <;> exact Except.noConfusion hm
    · intro hn
      exact ⟨"kind needs to be in random, very-random, not-random",
        by simp [get_image_generator, hn]⟩

/-- C10: the three accepted kinds configure the image generator with
`rescale = 1/255`; `not-random` sets no augmentation parameters, `random`
additionally sets `shear_range = 0.1` and `zoom_range = 0.1`, and `very-random`
additionally sets `shear_range = 0.2`, `zoom_range = 0.2` and
`horizontal_flip = True`. -/
theorem image_generator_configs :
    get_image_generator "not-random" =
      Except.ok (some { rescale := 1/255, shear_range := 0, zoom_range := 0,
                        horizontal_flip := false }) ∧
    get_image_generator "random" =
      Except.ok (some { rescale := 1/255, shear_range := 1/10, zoom_range := 1/10,
                        horizontal_flip := false }) ∧
    get_image_generator "very-random" =
      Except.ok (some { rescale := 1/255, shear_range := 1/5, zoom_range := 1/5,
                        horizontal_flip := true }) :=
  ⟨rfl, rfl, rfl⟩

/-- Layers observable in the models built by `walholla/models.py`: `Input`,
`Dense` (units, activation name, and the `input_shape` keyword when given),
`Dropout`, and the `Add` merge used for skip connections.  A model is the list
of layers in creation order. -/
inductive Layer where
  | input : List Nat → Layer
  | dense : Nat → String → Option (List Nat) → Layer
  | dropout : ℚ → Layer
  | add : Layer
deriving DecidableEq, Repr

def isDense : Layer → Bool
  | Layer.dense _ _ _ => true
  | _ => false

def isAdd : Layer → Bool
  | Layer.add => true
  | _ => false

def isDropout : Layer → Bool
  | Layer.dropout _ => true
  | _ => false

/-- Python `zip` over four iterables: truncates at the shortest. -/
def zip4 {α β γ δ : Type} : List α → List β → List γ → List δ → List (α × β × γ × δ)
  | a :: as, b :: bs, c :: cs, d :: ds => (a, b, c, d) :: zip4 as bs cs ds
  | _, _, _, _ => []

/-- Broadcast of the `activations` argument (`models.py` lines 64-65): a plain
string is repeated once per entry of `layer_definitions`, a list is kept. -/
def bcActs (layer_definitions : List Nat) : Sum String (List String) → List String
  | Sum.inl s => List.replicate layer_definitions.length s
  | Sum.inr l => l

/-- Broadcast of the `dropouts` argument (`models.py` lines 67-68): a scalar
(`np.isscalar`) is repeated once per entry of the broadcast `activations`. -/
def bcDrops (activations : List String) : Sum ℚ (List ℚ) → List ℚ
  | Sum.inl d => List.replicate activations.length d
  | Sum.inr l => l

/-- Embedding of `custom_fc_model` (`models.py` lines 27-81): broadcast the configuration,
then one `Dense` per `zip` row — the first with `input_shape` — followed by a
`Dropout` whenever the row's dropout rate is positive. -/
def custom_fc_model (input_dim : Nat) (layer_definitions : List Nat)
    (activations : Sum String (List String)) (dropouts : Sum ℚ (List ℚ)) : List Layer :=
  let input_shape := [input_dim]
  let acts := bcActs layer_definitions activations
  let drops := bcDrops acts dropouts
  (zip4 (List.range layer_definitions.length) layer_definitions acts drops).foldl
    (fun model r =>
      let model := if r.1 = 0
        then model ++ [Layer.dense r.2.1 r.2.2.1 (some input_shape)]
        else model ++ [Layer.dense r.2.1 r.2.2.1 none]
      if r.2.2.2 > 0 then model ++ [Layer.dropout r.2.2.2] else model) []

/-- The architecture the spec describes for `custom_fc_model`: one `Dense` layer
per entry of `layer_definitions` in order, the first carrying the input shape,
with a `Dropout` inserted immediately after the i-th `Dense` exactly when the
i-th dropout rate is positive. -/
def fcSpec (input_shape : Option (List Nat)) :
    List Nat → List String → List ℚ → List Layer
  | n :: lds, a :: acts, dr :: drops =>
      Layer.dense n a input_shape ::
        ((if dr > 0 then [Layer.dropout dr] else []) ++ fcSpec none lds acts drops)
  | _, _, _ => []

/-- One step of the `custom_fc_model` loop, as the list it appends. -/
def fcRow (input_shape : List Nat) (r : Nat × Nat × String × ℚ) : List Layer :=
  (if r.1 = 0 then [Layer.dense r.2.1 r.2.2.1 (some input_shape)]
   else [Layer.dense r.2.1 r.2.2.1 none]) ++
  (if r.2.2.2 > 0 then [Layer.dropout r.2.2.2] else [])

lemma fc_foldl_eq_flatMap (sh : List Nat) (rows : List (Nat × Nat × String × ℚ)) :
    ∀ init : List Layer,
      rows.foldl
        (fun model r =>
          let model := if r.1 = 0
            then model ++ [Layer.dense r.2.1 r.2.2.1 (some sh)]
            else model ++ [Layer.dense r.2.1 r.2.2.1 none]
          if r.2.2.2 > 0 then model ++ [Layer.dropout r.2.2.2] else model) init =
      init ++ rows.flatMap (fcRow sh) := by
  induction rows with
  | nil => intro init; simp
  | cons r rows ih =>
    intro init
    rw [List.foldl_cons, List.flatMap_cons, ih]
    have hstep : (let model := if r.1 = 0
          then init ++ [Layer.dense r.2.1 r.2.2.1 (some sh)]
          else init ++ [Layer.dense r.2.1 r.2.2.1 none]
        if r.2.2.2 > 0 then model ++ [Layer.dropout r.2.2.2] else model) =
        init ++ fcRow sh r := by
      unfold fcRow
      by_cases h0 : r.1 = 0 <;> by_cases hd : r.2.2.2 > 0 <;>
        simp [h0, hd, List.append_assoc]
    rw [hstep, List.append_assoc]

lemma zip4_map_fst {α β γ δ ε : Type} (f : α → ε) :
    ∀ (as : List α) (bs : List β) (cs : List γ) (ds : List δ),
      zip4 (as.map f) bs cs ds = (zip4 as bs cs ds).map (fun r => (f r.1, r.2)) := by
  intro as
  induction as with
  | nil => intro bs cs ds; cases bs <;> cases cs <;> cases ds <;> rfl
  | cons a as ih =>
    intro bs cs ds
    cases bs <;> cases cs <;> cases ds <;> simp [zip4, ih]

lemma fcRows_eq_fcSpec_none (sh : List Nat) :
    ∀ (lds : List Nat) (A : List String) (D : List ℚ) (is : List Nat),
      is.length = lds.length → A.length = lds.length → D.length = lds.length →
      (∀ j ∈ is, j ≠ 0) →
      (zip4 is lds A D).flatMap (fcRow sh) = fcSpec none lds A D := by
  intro lds
  induction lds with
  | nil =>
    intro A D is hi _ _ _
    rw [List.length_nil, List.length_eq_zero] at hi
    subst hi
    rfl
  | cons n lds ih =>
    intro A D is hi hA hD hnz
    cases is with
    | nil => simp at hi
    | cons j is =>
      cases A with
      | nil => simp at hA
      | cons a A =>
        cases D with
        | nil => simp at hD
        | cons dr D =>
          have hj : j ≠ 0 := hnz j (by simp)
          simp only [zip4, List.flatMap_cons, fcSpec]
          rw [ih A D is (by simpa using hi) (by simpa using hA) (by simpa using hD)
            (fun x hx => hnz x (by simp [hx]))]
          simp [fcRow, hj]

/-- Shared characterisation of `custom_fc_model`: when per-layer lists match the
length of `layer_definitions`, the build loop produces exactly the architecture
`fcSpec` describes. -/
lemma custom_fc_model_eq_fcSpec (input_dim : Nat) (lds : List Nat)
    (acts : Sum String (List String)) (drops : Sum ℚ (List ℚ))
    (hA : (bcActs lds acts).length = lds.length)
    (hD : (bcDrops (bcActs lds acts) drops).length = lds.length) :
    custom_fc_model input_dim lds acts drops =
      fcSpec (some [input_dim]) lds (bcActs lds acts) (bcDrops (bcActs lds acts) drops) := by
  unfold custom_fc_model
  rw [fc_foldl_eq_flatMap, List.nil_append]
  cases lds with
  | nil => rfl
  | cons n lds =>
    rcases hAc : bcActs (n :: lds) acts with _ | ⟨a, A⟩
    · rw [hAc] at hA
      exact absurd hA (by simp)
    · rcases hDc : bcDrops (bcActs (n :: lds) acts) drops with _ | ⟨dr, D⟩
      · rw [hAc] at hD
        rw [hAc] at hDc
        rw [hDc] at hD
        exact absurd hD (by simp)
      · rw [hAc] at hA
        rw [hAc] at hD
        rw [hAc] at hDc
        rw [hDc] at hD
        rw [hDc]
        rw [List.length_cons, List.range_succ_eq_map]
        simp only [zip4, List.flatMap_cons]
        rw [fcRows_eq_fcSpec_none [input_dim] lds A D
          (List.map Nat.succ (List.range lds.length))
          (by simp) (by simpa using hA) (by simpa using hD)
          (by intro j hj; rw [List.mem_map] at hj; obtain ⟨x, _, hx⟩ := hj; omega)]
        simp [fcSpec, fcRow]

/-- C3: for every `layer_definitions`, with activations a single string or a
per-layer list and dropouts a scalar or a per-layer list (per-layer lists
matching the number of entries), `custom_fc_model` contains exactly one Dense
layer per entry in order — the first carrying `input_shape = (input_dim,)` —
with a Dropout immediately after the i-th Dense exactly when the i-th dropout
rate is positive; scalars broadcast to one value per entry. -/
theorem custom_fc_model_architecture (input_dim : Nat) (lds : List Nat)
    (acts : Sum String (List String)) (drops : Sum ℚ (List ℚ))
    (hA : (bcActs lds acts).length = lds.length)
    (hD : (bcDrops (bcActs lds acts) drops).length = lds.length) :
    custom_fc_model input_dim lds acts drops =
      fcSpec (some [input_dim]) lds (bcActs lds acts) (bcDrops (bcActs lds acts) drops) :=
  custom_fc_model_eq_fcSpec input_dim lds acts drops hA hD

/-- Witness for C3 at a concrete configuration with per-layer activations and
dropouts (one positive, one zero rate). -/
theorem custom_fc_model_architecture_witness :
    (bcActs [3, 2] (Sum.inr ["relu", "sigmoid"])).length = [3, 2].length ∧
    (bcDrops (bcActs [3, 2] (Sum.inr ["relu", "sigmoid"]))
      (Sum.inr [0, 1/2])).length = [3, 2].length ∧
    custom_fc_model 4 [3, 2] (Sum.inr ["relu", "sigmoid"]) (Sum.inr [0, 1/2]) =
      fcSpec (some [4]) [3, 2] (bcActs [3, 2] (Sum.inr ["relu", "sigmoid"]))
        (bcDrops (bcActs [3, 2] (Sum.inr ["relu", "sigmoid"])) (Sum.inr [0, 1/2])) :=
  ⟨rfl, rfl,
    custom_fc_model_architecture 4 [3, 2] (Sum.inr ["relu", "sigmoid"])
      (Sum.inr [0, 1/2]) rfl rfl⟩

/-- Shape semantics of a sequential keras model, modelled from the underlying
library (keras is not part of this repository): a `Dense` layer with `u` units
maps feature size `m` to `u` with a kernel of shape `(m, u)` and a bias of
length `u`; `Dropout` preserves the feature size.  Returns, per Dense layer in
order, the kernel shape paired with the bias length. -/
def denseShapes (inSize : Nat) : List Layer → List ((Nat × Nat) × Nat)
  | [] => []
  | Layer.dense u _ _ :: rest => ((inSize, u), u) :: denseShapes u rest
  | _ :: rest => denseShapes inSize rest

lemma denseShapes_fcSpec_zero_dropout :
    ∀ (lds : List Nat) (A : List String) (d : Nat) (sh : Option (List Nat)),
      A.length = lds.length →
      denseShapes d (fcSpec sh lds A (List.replicate lds.length 0)) =
        (List.zip (d :: lds) lds).map (fun p => ((p.1, p.2), p.2)) := by
  intro lds
  induction lds with
  | nil =>
    intro A d sh hA
    simp only [List.length_nil] at hA
    rw [List.length_eq_zero] at hA
    subst hA
    rfl
  | cons n lds ih =>
    intro A d sh hA
    cases A with
    | nil => simp at hA
    | cons a A =>
      simp only [List.length_cons, List.replicate_succ, fcSpec]
      have : ¬ ((0 : ℚ) > 0) := by norm_num
      rw [if_neg this]
      simp only [List.nil_append, denseShapes, List.zip_cons_cons, List.map_cons]
      rw [ih A n none (by simpa using hA)]

/-- C4: for every input dimension and list of layer sizes (default activation
string, zero dropout), the i-th Dense layer of the model built by
`custom_fc_model` has kernel shape `(n_(i-1), n_i)` with `n_0` the input
dimension, and bias length `n_i`. -/
theorem custom_fc_model_weight_shapes (d : Nat) (lds : List Nat) :
    denseShapes d (custom_fc_model d lds (Sum.inl "relu") (Sum.inl 0)) =
      (List.zip (d :: lds) lds).map (fun p => ((p.1, p.2), p.2)) := by
  rw [custom_fc_model_eq_fcSpec d lds (Sum.inl "relu") (Sum.inl 0)
    (by simp [bcActs]) (by simp [bcActs, bcDrops])]
  simp only [bcActs, bcDrops, List.length_replicate]
  exact denseShapes_fcSpec_zero_dropout lds (List.replicate lds.length "relu") d
    (some [d]) (by simp)

/-- Embedding of `resnet_model` (`models.py` lines 9-24): an input layer, a first dense
layer, `depth // 2` skip blocks (dense, add, dense, plus dropout when the rate
is positive), and a final dense layer, in creation order. -/
def resnet_model (input_dim output_dim depth width : Nat)
    (activation final_activation : String) (dropout : ℚ) : List Layer :=
  let inputs := [Layer.input [input_dim]]
  let nn := inputs ++ [Layer.dense width activation none]
  let nn := (List.range (depth / 2)).foldl
    (fun nn _ =>
      let nn := nn ++ [Layer.dense width activation none, Layer.add,
                       Layer.dense width activation none]
      if dropout > 0 then nn ++ [Layer.dropout dropout] else nn) nn
  nn ++ [Layer.dense output_dim final_activation none]

lemma foldl_const_append {α : Type} (B : List Layer) :
    ∀ (l : List α) (init : List Layer),
      l.foldl (fun acc _ => acc ++ B) init = init ++ (List.replicate l.length B).flatten := by
  intro l
  induction l with
  | nil => intro init; simp
  | cons x l ih =>
    intro init
    rw [List.foldl_cons, ih, List.length_cons, List.replicate_succ, List.flatten_cons,
      List.append_assoc]

/-- The skip block appended on each loop iteration of `resnet_model`. -/
def resnetBlock (width : Nat) (activation : String) (dropout : ℚ) : List Layer :=
  [Layer.dense width activation none, Layer.add, Layer.dense width activation none] ++
    (if dropout > 0 then [Layer.dropout dropout] else [])

lemma resnet_model_eq (input_dim output_dim depth width : Nat)
    (activation final_activation : String) (dropout : ℚ) :
    resnet_model input_dim output_dim depth width activation final_activation dropout =
      [Layer.input [input_dim], Layer.dense width activation none] ++
        (List.replicate (depth / 2) (resnetBlock width activation dropout)).flatten ++
        [Layer.dense output_dim final_activation none] := by
  unfold resnet_model
  have hstep : (fun (nn : List Layer) (_ : Nat) =>
      let nn := nn ++ [Layer.dense width activation none, Layer.add,
                       Layer.dense width activation none]
      if dropout > 0 then nn ++ [Layer.dropout dropout] else nn) =
      (fun (nn : List Layer) (_ : Nat) => nn ++ resnetBlock width activation dropout) := by
    funext nn i
    unfold resnetBlock
    by_cases hd : dropout > 0 <;> simp [hd, List.append_assoc]
  simp only [hstep]
  rw [foldl_const_append, List.length_range]
  simp [List.append_assoc]

lemma countP_flatten_replicate (p : Layer → Bool) (B : List Layer) :
    ∀ n : Nat, ((List.replicate n B).flatten.countP p) = n * B.countP p := by
  intro n
  induction n with
  | zero => simp
  | succ n ih =>
    rw [List.replicate_succ, List.flatten_cons, List.countP_append, ih]
    ring

/-- C8: for every depth, `resnet_model` builds exactly `depth / 2` Add layers
and `2 + 2 * (depth / 2)` Dense layers, with a Dropout after each skip block
exactly when the dropout rate is positive (so `depth / 2` Dropouts then, none
otherwise); depths 0 and 1 give a plain two-Dense network with no skip
connection, and an odd depth builds the same architecture as the even depth
below it. -/
theorem resnet_model_architecture (input_dim output_dim depth width : Nat)
    (activation final_activation : String) (dropout : ℚ) :
    resnet_model input_dim output_dim depth width activation final_activation dropout =
      [Layer.input [input_dim], Layer.dense width activation none] ++
        (List.replicate (depth / 2) (resnetBlock width activation dropout)).flatten ++
        [Layer.dense output_dim final_activation none] ∧
    (resnet_model input_dim output_dim depth width activation final_activation
      dropout).countP isAdd = depth / 2 ∧
    (resnet_model input_dim output_dim depth width activation final_activation
      dropout).countP isDense = 2 + 2 * (depth / 2) ∧
    (resnet_model input_dim output_dim depth width activation final_activation
      dropout).countP isDropout = (if dropout > 0 then depth / 2 else 0) ∧
    resnet_model input_dim output_dim depth width activation final_activation dropout =
      resnet_model input_dim output_dim (2 * (depth / 2)) width activation
        final_activation dropout := by
  refine ⟨resnet_model_eq _ _ _ _ _ _ _, ?_, ?_, ?_, ?_⟩
  · rw [resnet_model_eq]
    simp only [List.countP_append, countP_flatten_replicate]
    by_cases hd : dropout > 0 <;>
      simp [resnetBlock, hd, List.countP_cons, isAdd, isDense, isDropout]
  · rw [resnet_model_eq]
    simp only [List.countP_append, countP_flatten_replicate]
    by_cases hd : dropout > 0 <;>
      · simp [resnetBlock, hd, List.countP_cons, isAdd, isDense, isDropout]
        ring
  · rw [resnet_model_eq]
    simp only [List.countP_append, countP_flatten_replicate]
    by_cases hd : dropout > 0 <;>
      simp [resnetBlock, hd, List.countP_cons, isAdd, isDense, isDropout]
  · rw [resnet_model_eq, resnet_model_eq]
    rw [Nat.mul_div_cancel_left _ (by norm_num : (0:ℕ) < 2)]

/-- Numpy arrays, represented by provenance: `ones shape`, the element-filling
loop over a directory iterator (which writes one image/label per index and
preserves the shape), or the output of `base_model.predict` (whose shape the
repository does not determine). -/
inductive NpArr where
  | ones : List Nat → NpArr
  | fillLoop : String → Nat → NpArr → NpArr
  | predictOut : String → NpArr → NpArr
deriving DecidableEq, Repr, Inhabited

/-- Shape of an array where the repository's code determines it. -/
def NpArr.shape : NpArr → Option (List Nat)
  | NpArr.ones s => some s
  | NpArr.fillLoop _ _ a => a.shape
  | NpArr.predictOut _ _ => none

/-- The local disk, as an association list from paths to stored arrays. -/
abbrev FS : Type := List (String × NpArr)

/-- Explicit state threaded through the cache functions: the file system, the
log of paths written by `np.save` with the saved arrays, and the number of
`make_pretrained_weights` invocations. -/
structure St where
  fs : FS
  writes : List (String × NpArr)
  makeCalls : Nat
deriving DecidableEq, Repr

def os_path_join (a b : String) : String := a ++ "/" ++ b

def os_path_exists (fs : FS) (p : String) : Bool :=
  (List.lookup p fs).isSome

/-- Model of `np.save(path, arr)`: appends the `.npy` extension to the extension-less
path it is given, then writes the file. -/
def np_save (st : St) (path : String) (arr : NpArr) : St :=
  { st with fs := (path ++ ".npy", arr) :: st.fs,
            writes := st.writes ++ [(path ++ ".npy", arr)] }

/-- Model of `np.load(path)`: returns the stored array, raising when the file is absent. -/
def np_load (fs : FS) (path : String) : Except PyErr NpArr :=
  match List.lookup path fs with
  | some a => Except.ok a
  | none => Except.error (PyErr.ioError ("No such file: " ++ path))

/-- Configuration tuple shared by the cache functions (`dataset`, `generator`,
`class_mode`, `model`, `n_img`, `img_size`). -/
structure Config where
  dataset : String
  generator : String
  class_mode : String
  model : String
  n_img : Nat
  img_size : Nat × Nat
deriving DecidableEq, Repr

/-- Embedding of `make_pretrained_filenames` (`utils.py` lines 94-102). -/
def make_pretrained_filenames (dataset generator model : String) (n_img : Nat)
    (img_size : Nat × Nat) (npy : Bool) : List String :=
  let base_name := dataset ++ "-" ++ model ++ "-" ++ generator ++ "-" ++
    toString n_img ++ "-" ++ (toString img_size.1 ++ "x" ++ toString img_size.2)
  let names := ["train", "valid"].flatMap
    (fun settype => ["data", "label"].map
      (fun xy => base_name ++ "-" ++ settype ++ "-" ++ xy))
  if npy then names.map (fun s => s ++ ".npy") else names

/-- The paths whose existence `get_pretrained_weights` checks and which it
subsequently loads: the `.npy` cache filenames joined onto the cache directory
(`utils.py` lines 175-181). -/
def checkedPaths (pretrained_path : String) (cfg : Config) : List String :=
  (make_pretrained_filenames cfg.dataset cfg.generator cfg.model cfg.n_img
    cfg.img_size true).map (os_path_join pretrained_path)

/-- Embedding of `make_pretrained_weights` (`utils.py` lines 105-170).  `pretrained_path`
stands for the `PRETRAINED_PATH` constant imported from the absent
`settings.py`; `image_shape` stands for the directory iterator's `image_shape`
(keras-determined, so kept abstract); `channels_first` for the keras backend
data format.  The state's `makeCalls` counter records the invocation. -/
def make_pretrained_weights (pretrained_path : String) (image_shape : List Nat)
    (channels_first : Bool) (cfg : Config) (st0 : St) : Except PyErr St := do
  let st := { st0 with makeCalls := st0.makeCalls + 1 }
  match make_pretrained_filenames cfg.dataset cfg.generator cfg.model cfg.n_img
      cfg.img_size false with
  | [x_train_fname, y_train_fname, x_valid_fname, y_valid_fname] =>
    let _datagen ← get_image_generator cfg.generator
    let x_shape := cfg.n_img :: image_shape
    let x_train := NpArr.fillLoop "train" cfg.n_img (NpArr.ones x_shape)
    let y_train := NpArr.fillLoop "train" cfg.n_img (NpArr.ones [cfg.n_img])
    let x_valid := NpArr.fillLoop "valid" cfg.n_img (NpArr.ones x_shape)
    let y_valid := NpArr.fillLoop "valid" cfg.n_img (NpArr.ones [cfg.n_img])
    let _base_model ← get_pretrained_model cfg.model cfg.img_size channels_first
    let pretrained_train := NpArr.predictOut cfg.model x_train
    let st := np_save st (os_path_join pretrained_path x_train_fname) pretrained_train
    let st := np_save st (os_path_join pretrained_path y_train_fname) y_train
    let pretrained_valid := NpArr.predictOut cfg.model x_valid
    let st := np_save st (os_path_join pretrained_path x_valid_fname) pretrained_valid
    let st := np_save st (os_path_join pretrained_path y_valid_fname) y_valid
    pure st
  | _ => Except.error (PyErr.valueError "not enough values to unpack")

/-- One iteration of the cache-check loop of `get_pretrained_weights`
(`utils.py` lines 176-179): regenerate when the checked path does not exist. -/
def cacheStep (pretrained_path : String) (image_shape : List Nat)
    (channels_first : Bool) (cfg : Config) (st : St) (p : String) : Except PyErr St :=
  if os_path_exists st.fs p then pure st
  else make_pretrained_weights pretrained_path image_shape channels_first cfg st

/-- Embedding of `get_pretrained_weights` (`utils.py` lines 173-193): check each cache path,
regenerating on a miss, then load the four arrays and return them in filename
order `(x_train, y_train, x_valid, y_valid)`. -/
def get_pretrained_weights (pretrained_path : String) (image_shape : List Nat)
    (channels_first : Bool) (cfg : Config) (st0 : St) :
    Except PyErr (St × (NpArr × NpArr × NpArr × NpArr)) := do
  let st ← (checkedPaths pretrained_path cfg).foldlM
    (cacheStep pretrained_path image_shape channels_first cfg) st0
  match checkedPaths pretrained_path cfg with
  | [x_train_fpath, y_train_fpath, x_valid_fpath, y_valid_fpath] => do
    let x_train ← np_load st.fs x_train_fpath
    let y_train ← np_load st.fs y_train_fpath
    let x_valid ← np_load st.fs x_valid_fpath
    let y_valid ← np_load st.fs y_valid_fpath
    pure (st, (x_train, y_train, x_valid, y_valid))
  | _ => Except.error (PyErr.valueError "not enough values to unpack")

/-- The common filename prefix `'{dataset}-{model}-{generator}-{n_img}-{width}x{height}'`. -/
def baseName (cfg : Config) : String :=
  cfg.dataset ++ "-" ++ cfg.model ++ "-" ++ cfg.generator ++ "-" ++
    toString cfg.n_img ++ "-" ++ (toString cfg.img_size.1 ++ "x" ++ toString cfg.img_size.2)

def trainDataFile (cfg : Config) : String := baseName cfg ++ "-" ++ "train" ++ "-" ++ "data"

def trainLabelFile (cfg : Config) : String := baseName cfg ++ "-" ++ "train" ++ "-" ++ "label"

def validDataFile (cfg : Config) : String := baseName cfg ++ "-" ++ "valid" ++ "-" ++ "data"

def validLabelFile (cfg : Config) : String := baseName cfg ++ "-" ++ "valid" ++ "-" ++ "label"

lemma mpf_false_eq (cfg : Config) :
    make_pretrained_filenames cfg.dataset cfg.generator cfg.model cfg.n_img
      cfg.img_size false =
    [trainDataFile cfg, trainLabelFile cfg, validDataFile cfg, validLabelFile cfg] := rfl

lemma mpf_true_eq (cfg : Config) :
    make_pretrained_filenames cfg.dataset cfg.generator cfg.model cfg.n_img
      cfg.img_size true =
    [trainDataFile cfg ++ ".npy", trainLabelFile cfg ++ ".npy",
     validDataFile cfg ++ ".npy", validLabelFile cfg ++ ".npy"] := rfl

lemma checkedPaths_eq (pp : String) (cfg : Config) :
    checkedPaths pp cfg =
    [os_path_join pp (trainDataFile cfg ++ ".npy"),
     os_path_join pp (trainLabelFile cfg ++ ".npy"),
     os_path_join pp (validDataFile cfg ++ ".npy"),
     os_path_join pp (validLabelFile cfg ++ ".npy")] := rfl

lemma join_npy (pp n : String) :
    os_path_join pp n ++ ".npy" = os_path_join pp (n ++ ".npy") := by
  simp [os_path_join, String.append_assoc]

/-- The state a successful `make_pretrained_weights` call produces: the four
cache files written onto disk and logged, and the invocation counted. -/
def mkSt (pp : String) (ish : List Nat) (cfg : Config) (st0 : St) : St :=
  let st := { st0 with makeCalls := st0.makeCalls + 1 }
  let x_train := NpArr.fillLoop "train" cfg.n_img (NpArr.ones (cfg.n_img :: ish))
  let y_train := NpArr.fillLoop "train" cfg.n_img (NpArr.ones [cfg.n_img])
  let x_valid := NpArr.fillLoop "valid" cfg.n_img (NpArr.ones (cfg.n_img :: ish))
  let y_valid := NpArr.fillLoop "valid" cfg.n_img (NpArr.ones [cfg.n_img])
  let st := np_save st (os_path_join pp (trainDataFile cfg)) (NpArr.predictOut cfg.model x_train)
  let st := np_save st (os_path_join pp (trainLabelFile cfg)) y_train
  let st := np_save st (os_path_join pp (validDataFile cfg)) (NpArr.predictOut cfg.model x_valid)
  let st := np_save st (os_path_join pp (validLabelFile cfg)) y_valid
  st

lemma make_ok (pp : String) (ish : List Nat) (cf : Bool) (cfg : Config) (st : St)
    (hg : cfg.generator ∈ ["random", "very-random", "not-random"])
    (hm : cfg.model ∈ ["vgg16", "vgg19", "mobilenet", "xception"]) :
    make_pretrained_weights pp ish cf cfg st = Except.ok (mkSt pp ish cfg st) := by
  obtain ⟨ds, g, cm, md, n, sz⟩ := cfg
  simp only [List.mem_cons, List.not_mem_nil, or_false] at hg hm
  rcases hg with hg | hg | hg <;> rcases hm with hm | hm | hm | hm <;>
    (subst hg; subst hm; rfl)

/-- The four write events of one `make_pretrained_weights` call. -/
def mkWrites (pp : String) (ish : List Nat) (cfg : Config) : List (String × NpArr) :=
  [(os_path_join pp (trainDataFile cfg) ++ ".npy",
     NpArr.predictOut cfg.model (NpArr.fillLoop "train" cfg.n_img (NpArr.ones (cfg.n_img :: ish)))),
   (os_path_join pp (trainLabelFile cfg) ++ ".npy",
     NpArr.fillLoop "train" cfg.n_img (NpArr.ones [cfg.n_img])),
   (os_path_join pp (validDataFile cfg) ++ ".npy",
     NpArr.predictOut cfg.model (NpArr.fillLoop "valid" cfg.n_img (NpArr.ones (cfg.n_img :: ish)))),
   (os_path_join pp (validLabelFile cfg) ++ ".npy",
     NpArr.fillLoop "valid" cfg.n_img (NpArr.ones [cfg.n_img]))]

lemma mkSt_makeCalls (pp : String) (ish : List Nat) (cfg : Config) (st : St) :
    (mkSt pp ish cfg st).makeCalls = st.makeCalls + 1 := rfl

lemma mkSt_writes (pp : String) (ish : List Nat) (cfg : Config) (st : St) :
    (mkSt pp ish cfg st).writes = st.writes ++ mkWrites pp ish cfg := by
  show st.writes ++ [(mkWrites pp ish cfg).get! 0] ++ [(mkWrites pp ish cfg).get! 1] ++
      [(mkWrites pp ish cfg).get! 2] ++ [(mkWrites pp ish cfg).get! 3] =
    st.writes ++ mkWrites pp ish cfg
  simp [mkWrites, List.append_assoc]

lemma mkSt_fs (pp : String) (ish : List Nat) (cfg : Config) (st : St) :
    (mkSt pp ish cfg st).fs =
    ((mkWrites pp ish cfg).get! 3) :: ((mkWrites pp ish cfg).get! 2) ::
      ((mkWrites pp ish cfg).get! 1) :: ((mkWrites pp ish cfg).get! 0) :: st.fs := rfl

lemma mkWrites_fst (pp : String) (ish : List Nat) (cfg : Config) :
    (mkWrites pp ish cfg).map Prod.fst = checkedPaths pp cfg := by
  rw [checkedPaths_eq]
  simp [mkWrites, join_npy]

lemma lookup_isSome_of_mem_keys {α : Type} (k : String) :
    ∀ l : List (String × α), k ∈ l.map Prod.fst → (List.lookup k l).isSome = true := by
  intro l
  induction l with
  | nil => intro h; simp at h
  | cons kv l ih =>
    obtain ⟨k1, v1⟩ := kv
    intro h
    simp only [List.map_cons, List.mem_cons] at h
    by_cases hk : k == k1
    · simp [List.lookup, hk]
    · rcases h with h | h
      · exact absurd (by simp [h] : (k == k1) = true) hk
      · simp [List.lookup, hk, ih h]

lemma mkSt_exists (pp : String) (ish : List Nat) (cfg : Config) (st : St) (p : String)
    (hp : p ∈ checkedPaths pp cfg) :
    os_path_exists (mkSt pp ish cfg st).fs p = true := by
  rw [← mkWrites_fst pp ish cfg] at hp
  unfold os_path_exists
  rw [mkSt_fs]
  apply lookup_isSome_of_mem_keys
  simp only [List.mem_map] at hp
  obtain ⟨w, hw, hwp⟩ := hp
  simp only [mkWrites, List.mem_cons, List.not_mem_nil, or_false] at hw
  rcases hw with hw | hw | hw | hw <;> subst hw <;> subst hwp <;>
    simp [mkWrites, List.get!]

lemma fold_skip (pp : String) (ish : List Nat) (cf : Bool) (cfg : Config) :
    ∀ (ps : List String) (st : St),
      (∀ p ∈ ps, os_path_exists st.fs p = true) →
      ps.foldlM (cacheStep pp ish cf cfg) st = Except.ok st := by
  intro ps
  induction ps with
  | nil => intro st _; rfl
  | cons q ps ih =>
    intro st h
    rw [List.foldlM_cons]
    have hq : os_path_exists st.fs q = true := h q (by simp)
    simp only [cacheStep, hq, if_true]
    show ps.foldlM (cacheStep pp ish cf cfg) st = Except.ok st
    exact ih st (fun p hp => h p (by simp [hp]))

lemma fold_make (pp : String) (ish : List Nat) (cf : Bool) (cfg : Config)
    (hg : cfg.generator ∈ ["random", "very-random", "not-random"])
    (hm : cfg.model ∈ ["vgg16", "vgg19", "mobilenet", "xception"]) :
    ∀ (ps : List String) (st : St),
      (∀ p ∈ ps, p ∈ checkedPaths pp cfg) →
      (¬ ∀ p ∈ ps, os_path_exists st.fs p = true) →
      ps.foldlM (cacheStep pp ish cf cfg) st = Except.ok (mkSt pp ish cfg st) := by
  intro ps
  induction ps with
  | nil => intro st _ hmiss; exact absurd (by simp) hmiss
  | cons q ps ih =>
    intro st hsub hmiss
    rw [List.foldlM_cons]
    by_cases hq : os_path_exists st.fs q = true
    · simp only [cacheStep, hq, if_true]
      show ps.foldlM (cacheStep pp ish cf cfg) st = Except.ok (mkSt pp ish cfg st)
      apply ih st (fun p hp => hsub p (List.mem_cons_of_mem q hp))
      intro hall
      exact hmiss (fun p hp => by
        rcases List.mem_cons.mp hp with hp | hp
        · subst hp; exact hq
        · exact hall p hp)
    · simp only [cacheStep, hq, if_false,
        make_ok pp ish cf cfg st hg hm]
      show ps.foldlM (cacheStep pp ish cf cfg) (mkSt pp ish cfg st) =
        Except.ok (mkSt pp ish cfg st)
      exact fold_skip pp ish cf cfg ps (mkSt pp ish cfg st)
        (fun p hp => mkSt_exists pp ish cfg st p (hsub p (List.mem_cons_of_mem q hp)))

lemma np_load_of_exists (fs : FS) (p : String) (h : os_path_exists fs p = true) :
    ∃ a, np_load fs p = Except.ok a := by
  unfold os_path_exists at h
  rw [Option.isSome_iff_exists] at h
  obtain ⟨a, ha⟩ := h
  exact ⟨a, by simp [np_load, ha]⟩

/-- When all four cache files exist, `get_pretrained_weights` leaves the state
untouched and returns the four loaded arrays in filename order. -/
lemma gpw_all_exist (pp : String) (ish : List Nat) (cf : Bool) (cfg : Config)
    (fs : FS) (p1 p2 p3 p4 : String) (a1 a2 a3 a4 : NpArr)
    (hps : checkedPaths pp cfg = [p1, p2, p3, p4])
    (h1 : List.lookup p1 fs = some a1) (h2 : List.lookup p2 fs = some a2)
    (h3 : List.lookup p3 fs = some a3) (h4 : List.lookup p4 fs = some a4) :
    get_pretrained_weights pp ish cf cfg ⟨fs, [], 0⟩ =
      Except.ok (⟨fs, [], 0⟩, (a1, a2, a3, a4)) := by
  have hall : ∀ p ∈ checkedPaths pp cfg, os_path_exists (⟨fs, [], 0⟩ : St).fs p = true := by
    rw [hps]
    intro p hp
    simp only [List.mem_cons, List.not_mem_nil, or_false] at hp
    rcases hp with hp | hp | hp | hp <;> subst hp <;>
      simp [os_path_exists, h1, h2, h3, h4]
  unfold get_pretrained_weights
  rw [fold_skip pp ish cf cfg (checkedPaths pp cfg) ⟨fs, [], 0⟩ hall]
  rw [hps]
  show (do
    let x_train ← np_load fs p1
    let y_train ← np_load fs p2
    let x_valid ← np_load fs p3
    let y_valid ← np_load fs p4
    pure ((⟨fs, [], 0⟩ : St), (x_train, y_train, x_valid, y_valid)) :
      Except PyErr (St × (NpArr × NpArr × NpArr × NpArr))) = _
  simp only [np_load, h1, h2, h3, h4]
  rfl

/-- When some cache file is missing and the configuration is valid,
`get_pretrained_weights` performs exactly one `make_pretrained_weights` call
and then loads the freshly written files. -/
lemma gpw_missing (pp : String) (ish : List Nat) (cf : Bool) (cfg : Config) (fs : FS)
    (hg : cfg.generator ∈ ["random", "very-random", "not-random"])
    (hm : cfg.model ∈ ["vgg16", "vgg19", "mobilenet", "xception"])
    (hmiss : ¬ ∀ p ∈ checkedPaths pp cfg, os_path_exists fs p = true) :
    ∃ ret, get_pretrained_weights pp ish cf cfg ⟨fs, [], 0⟩ =
      Except.ok (mkSt pp ish cfg ⟨fs, [], 0⟩, ret) := by
  unfold get_pretrained_weights
  rw [fold_make pp ish cf cfg hg hm (checkedPaths pp cfg) ⟨fs, [], 0⟩
    (fun p hp => hp) hmiss]
  have hex : ∀ p ∈ checkedPaths pp cfg,
      os_path_exists (mkSt pp ish cfg ⟨fs, [], 0⟩).fs p = true :=
    fun p hp => mkSt_exists pp ish cfg ⟨fs, [], 0⟩ p hp
  rw [checkedPaths_eq] at hex
  obtain ⟨b1, hb1⟩ := np_load_of_exists _ (os_path_join pp (trainDataFile cfg ++ ".npy"))
    (hex _ (by simp))
  obtain ⟨b2, hb2⟩ := np_load_of_exists _ (os_path_join pp (trainLabelFile cfg ++ ".npy"))
    (hex _ (by simp))
  obtain ⟨b3, hb3⟩ := np_load_of_exists _ (os_path_join pp (validDataFile cfg ++ ".npy"))
    (hex _ (by simp))
  obtain ⟨b4, hb4⟩ := np_load_of_exists _ (os_path_join pp (validLabelFile cfg ++ ".npy"))
    (hex _ (by simp))
  refine ⟨(b1, b2, b3, b4), ?_⟩
  rw [checkedPaths_eq]
  show (do
    let x_train ← np_load (mkSt pp ish cfg ⟨fs, [], 0⟩).fs
      (os_path_join pp (trainDataFile cfg ++ ".npy"))
    let y_train ← np_load (mkSt pp ish cfg ⟨fs, [], 0⟩).fs
      (os_path_join pp (trainLabelFile cfg ++ ".npy"))
    let x_valid ← np_load (mkSt pp ish cfg ⟨fs, [], 0⟩).fs
      (os_path_join pp (validDataFile cfg ++ ".npy"))
    let y_valid ← np_load (mkSt pp ish cfg ⟨fs, [], 0⟩).fs
      (os_path_join pp (validLabelFile cfg ++ ".npy"))
    pure ((mkSt pp ish cfg ⟨fs, [], 0⟩),
      (x_train, y_train, x_valid, y_valid)) :
      Except PyErr (St × (NpArr × NpArr × NpArr × NpArr))) = _
  rw [hb1, hb2, hb3, hb4]
  rfl

/-- C1: `get_pretrained_weights` invokes `make_pretrained_weights` — which
recomputes and saves all four cache files — exactly when at least one of the
four expected cache files is missing from disk; the regeneration happens at
most once and afterwards all four files exist. -/
theorem gpw_regenerates_iff_missing (pp : String) (ish : List Nat) (cf : Bool)
    (cfg : Config) (fs : FS)
    (hg : cfg.generator ∈ ["random", "very-random", "not-random"])
    (hm : cfg.model ∈ ["vgg16", "vgg19", "mobilenet", "xception"]) :
    ∃ st1 ret, get_pretrained_weights pp ish cf cfg ⟨fs, [], 0⟩ =
        Except.ok (st1, ret) ∧
      (1 ≤ st1.makeCalls ↔ ¬ ∀ p ∈ checkedPaths pp cfg, os_path_exists fs p = true) ∧
      st1.makeCalls =
        (if ∀ p ∈ checkedPaths pp cfg, os_path_exists fs p = true then 0 else 1) ∧
      st1.writes.map Prod.fst =
        (if ∀ p ∈ checkedPaths pp cfg, os_path_exists fs p = true then []
         else checkedPaths pp cfg) ∧
      (∀ p ∈ checkedPaths pp cfg, os_path_exists st1.fs p = true) := by
  by_cases hall : ∀ p ∈ checkedPaths pp cfg, os_path_exists fs p = true
  · have hx := hall
    rw [checkedPaths_eq] at hx
    have h1 := hx (os_path_join pp (trainDataFile cfg ++ ".npy")) (by simp)
    have h2 := hx (os_path_join pp (trainLabelFile cfg ++ ".npy")) (by simp)
    have h3 := hx (os_path_join pp (validDataFile cfg ++ ".npy")) (by simp)
    have h4 := hx (os_path_join pp (validLabelFile cfg ++ ".npy")) (by simp)
    unfold os_path_exists at h1 h2 h3 h4
    rw [Option.isSome_iff_exists] at h1 h2 h3 h4
    obtain ⟨a1, ha1⟩ := h1
    obtain ⟨a2, ha2⟩ := h2
    obtain ⟨a3, ha3⟩ := h3
    obtain ⟨a4, ha4⟩ := h4
    refine ⟨⟨fs, [], 0⟩, (a1, a2, a3, a4),
      gpw_all_exist pp ish cf cfg fs _ _ _ _ a1 a2 a3 a4 (checkedPaths_eq pp cfg)
        ha1 ha2 ha3 ha4, ?hB, ?hC, ?hD, ?hE⟩
    case hB =>
      simp
      exact hall
    case hC => rw [if_pos hall]
    case hD => rw [if_pos hall]; rfl
    case hE => exact hall
  · obtain ⟨ret, hret⟩ := gpw_missing pp ish cf cfg fs hg hm hall
    refine ⟨mkSt pp ish cfg ⟨fs, [], 0⟩, ret, hret, ?_, ?_, ?_, ?_⟩
    · simp [mkSt_makeCalls, hall]
    · rw [if_neg hall, mkSt_makeCalls]
    · rw [if_neg hall, mkSt_writes]
      simp [mkWrites_fst]
    · exact fun p hp => mkSt_exists pp ish cfg ⟨fs, [], 0⟩ p hp

/-- C6: when all four cache files already exist, `get_pretrained_weights`
performs no write — `make_pretrained_weights` is never invoked, the file system
and write log are unchanged — and it returns the four arrays loaded from disk
in the filename order `(x_train, y_train, x_valid, y_valid)`. -/
theorem gpw_no_write_when_cached (pp : String) (ish : List Nat) (cf : Bool)
    (cfg : Config) (fs : FS) (p1 p2 p3 p4 : String) (a1 a2 a3 a4 : NpArr)
    (hps : checkedPaths pp cfg = [p1, p2, p3, p4])
    (h1 : List.lookup p1 fs = some a1) (h2 : List.lookup p2 fs = some a2)
    (h3 : List.lookup p3 fs = some a3) (h4 : List.lookup p4 fs = some a4) :
    get_pretrained_weights pp ish cf cfg ⟨fs, [], 0⟩ =
      Except.ok (⟨fs, [], 0⟩, (a1, a2, a3, a4)) :=
  gpw_all_exist pp ish cf cfg fs p1 p2 p3 p4 a1 a2 a3 a4 hps h1 h2 h3 h4

/-- C2: the cache filenames are a pure function of the configuration — four
names in the fixed order train-data, train-label, valid-data, valid-label,
each prefixed by `'{dataset}-{model}-{generator}-{n_img}-{width}x{height}'`
and suffixed `.npy` exactly when `npy` is true — and the paths
`make_pretrained_weights` writes (`np.save` appending `.npy` to the
extension-less names) are exactly the paths whose existence
`get_pretrained_weights` checks and then loads (`checkedPaths`). -/
theorem cache_filenames_pure_and_paths_agree (cfg : Config) (npy : Bool)
    (pp : String) (ish : List Nat) (cf : Bool) (fs : FS)
    (hg : cfg.generator ∈ ["random", "very-random", "not-random"])
    (hm : cfg.model ∈ ["vgg16", "vgg19", "mobilenet", "xception"]) :
    (make_pretrained_filenames cfg.dataset cfg.generator cfg.model cfg.n_img
        cfg.img_size npy =
      [trainDataFile cfg, trainLabelFile cfg, validDataFile cfg,
        validLabelFile cfg].map (fun s => if npy then s ++ ".npy" else s)) ∧
    ∃ st1, make_pretrained_weights pp ish cf cfg ⟨fs, [], 0⟩ = Except.ok st1 ∧
      st1.writes.map Prod.fst = checkedPaths pp cfg := by
  constructor
  · cases npy
    · rw [mpf_false_eq]; rfl
    · rw [mpf_true_eq]; rfl
  · refine ⟨mkSt pp ish cfg ⟨fs, [], 0⟩, make_ok pp ish cf cfg ⟨fs, [], 0⟩ hg hm, ?_⟩
    rw [mkSt_writes]
    simp [mkWrites_fst]

/-- C7: the label arrays `make_pretrained_weights` saves for the training and
validation sets each have shape `(n_img,)`, and the image arrays it assembles
and feeds to the pretrained model each have shape `[n_img]` followed by the
generator's image shape — the persisted shapes are fully determined by the
configuration parameters. -/
theorem make_saved_array_shapes (pp : String) (ish : List Nat) (cf : Bool)
    (cfg : Config) (fs : FS)
    (hg : cfg.generator ∈ ["random", "very-random", "not-random"])
    (hm : cfg.model ∈ ["vgg16", "vgg19", "mobilenet", "xception"]) :
    ∃ st1, make_pretrained_weights pp ish cf cfg ⟨fs, [], 0⟩ = Except.ok st1 ∧
      st1.writes = mkWrites pp ish cfg ∧
      (NpArr.fillLoop "train" cfg.n_img (NpArr.ones [cfg.n_img])).shape =
        some [cfg.n_img] ∧
      (NpArr.fillLoop "valid" cfg.n_img (NpArr.ones [cfg.n_img])).shape =
        some [cfg.n_img] ∧
      (NpArr.fillLoop "train" cfg.n_img (NpArr.ones (cfg.n_img :: ish))).shape =
        some (cfg.n_img :: ish) ∧
      (NpArr.fillLoop "valid" cfg.n_img (NpArr.ones (cfg.n_img :: ish))).shape =
        some (cfg.n_img :: ish) := by
  refine ⟨mkSt pp ish cfg ⟨fs, [], 0⟩, make_ok pp ish cf cfg ⟨fs, [], 0⟩ hg hm,
    ?_, rfl, rfl, rfl, rfl⟩
  rw [mkSt_writes]
  rfl

/-- Concrete configuration used by the witnesses below. -/
def exampleConfig : Config :=
  { dataset := "catdog", generator := "random", class_mode := "binary",
    model := "vgg16", n_img := 2, img_size := (4, 4) }

/-- Witness for C1: with an empty file system every cache file is missing, so
one regeneration happens. -/
theorem gpw_regenerates_iff_missing_witness :
    exampleConfig.generator ∈ ["random", "very-random", "not-random"] ∧
    exampleConfig.model ∈ ["vgg16", "vgg19", "mobilenet", "xception"] ∧
    ∃ st1 ret, get_pretrained_weights "pre" [4, 4, 3] false exampleConfig ⟨[], [], 0⟩ =
        Except.ok (st1, ret) ∧
      (1 ≤ st1.makeCalls ↔
        ¬ ∀ p ∈ checkedPaths "pre" exampleConfig, os_path_exists [] p = true) ∧
      st1.makeCalls =
        (if ∀ p ∈ checkedPaths "pre" exampleConfig, os_path_exists [] p = true
         then 0 else 1) ∧
      st1.writes.map Prod.fst =
        (if ∀ p ∈ checkedPaths "pre" exampleConfig, os_path_exists [] p = true
         then [] else checkedPaths "pre" exampleConfig) ∧
      (∀ p ∈ checkedPaths "pre" exampleConfig, os_path_exists st1.fs p = true) :=
  ⟨by decide, by decide,
    gpw_regenerates_iff_missing "pre" [4, 4, 3] false exampleConfig []
      (by decide) (by decide)⟩

/-- The file system used by the C6 witness: all four cache files present. -/
def exampleFS : FS :=
  [(os_path_join "pre" (trainDataFile exampleConfig ++ ".npy"), NpArr.ones [1]),
   (os_path_join "pre" (trainLabelFile exampleConfig ++ ".npy"), NpArr.ones [2]),
   (os_path_join "pre" (validDataFile exampleConfig ++ ".npy"), NpArr.ones [3]),
   (os_path_join "pre" (validLabelFile exampleConfig ++ ".npy"), NpArr.ones [4])]

/-- Witness for C6 on a file system that already holds the four cache files. -/
theorem gpw_no_write_when_cached_witness :
    checkedPaths "pre" exampleConfig =
      [os_path_join "pre" (trainDataFile exampleConfig ++ ".npy"),
       os_path_join "pre" (trainLabelFile exampleConfig ++ ".npy"),
       os_path_join "pre" (validDataFile exampleConfig ++ ".npy"),
       os_path_join "pre" (validLabelFile exampleConfig ++ ".npy")] ∧
    List.lookup (os_path_join "pre" (trainDataFile exampleConfig ++ ".npy"))
      exampleFS = some (NpArr.ones [1]) ∧
    List.lookup (os_path_join "pre" (trainLabelFile exampleConfig ++ ".npy"))
      exampleFS = some (NpArr.ones [2]) ∧
    List.lookup (os_path_join "pre" (validDataFile exampleConfig ++ ".npy"))
      exampleFS = some (NpArr.ones [3]) ∧
    List.lookup (os_path_join "pre" (validLabelFile exampleConfig ++ ".npy"))
      exampleFS = some (NpArr.ones [4]) ∧
    get_pretrained_weights "pre" [4, 4, 3] false exampleConfig ⟨exampleFS, [], 0⟩ =
      Except.ok (⟨exampleFS, [], 0⟩,
        (NpArr.ones [1], NpArr.ones [2], NpArr.ones [3], NpArr.ones [4])) :=
  ⟨rfl, by decide, by decide, by decide, by decide,
    gpw_no_write_when_cached "pre" [4, 4, 3] false exampleConfig exampleFS
      _ _ _ _ _ _ _ _ rfl (by decide) (by decide) (by decide) (by decide)⟩

/-- Witness for C2 at the concrete configuration, with the `.npy` suffix on. -/
theorem cache_filenames_pure_and_paths_agree_witness :
    exampleConfig.generator ∈ ["random", "very-random", "not-random"] ∧
    exampleConfig.model ∈ ["vgg16", "vgg19", "mobilenet", "xception"] ∧
    ((make_pretrained_filenames exampleConfig.dataset exampleConfig.generator
        exampleConfig.model exampleConfig.n_img exampleConfig.img_size true =
      [trainDataFile exampleConfig, trainLabelFile exampleConfig,
        validDataFile exampleConfig, validLabelFile exampleConfig].map
          (fun s => if true then s ++ ".npy" else s)) ∧
    ∃ st1, make_pretrained_weights "pre" [4, 4, 3] false exampleConfig ⟨[], [], 0⟩ =
        Except.ok st1 ∧
      st1.writes.map Prod.fst = checkedPaths "pre" exampleConfig) :=
  ⟨by decide, by decide,
    cache_filenames_pure_and_paths_agree exampleConfig true "pre" [4, 4, 3] false []
      (by decide) (by decide)⟩

/-- Witness for C7 at the concrete configuration. -/
theorem make_saved_array_shapes_witness :
    exampleConfig.generator ∈ ["random", "very-random", "not-random"] ∧
    exampleConfig.model ∈ ["vgg16", "vgg19", "mobilenet", "xception"] ∧
    ∃ st1, make_pretrained_weights "pre" [4, 4, 3] false exampleConfig ⟨[], [], 0⟩ =
        Except.ok st1 ∧
      st1.writes = mkWrites "pre" [4, 4, 3] exampleConfig ∧
      (NpArr.fillLoop "train" exampleConfig.n_img
        (NpArr.ones [exampleConfig.n_img])).shape = some [exampleConfig.n_img] ∧
      (NpArr.fillLoop "valid" exampleConfig.n_img
        (NpArr.ones [exampleConfig.n_img])).shape = some [exampleConfig.n_img] ∧
      (NpArr.fillLoop "train" exampleConfig.n_img
        (NpArr.ones (exampleConfig.n_img :: [4, 4, 3]))).shape =
          some (exampleConfig.n_img :: [4, 4, 3]) ∧
      (NpArr.fillLoop "valid" exampleConfig.n_img
        (NpArr.ones (exampleConfig.n_img :: [4, 4, 3]))).shape =
          some (exampleConfig.n_img :: [4, 4, 3]) :=
  ⟨by decide, by decide,
    make_saved_array_shapes "pre" [4, 4, 3] false exampleConfig []
      (by decide) (by decide)⟩

/-- Python values as dynamically typed arguments (`int`, `float`, `str`,
`list`), used to model calls of `custom_fc_model` with arguments of the wrong
type, such as the repository's own test passing the integer `1` as
`layer_definitions`. -/
inductive PyVal where
  | int : Int → PyVal
  | float : ℚ → PyVal
  | str : String → PyVal
  | list : List PyVal → PyVal

def pyTypeName : PyVal → String
  | PyVal.int _ => "int"
  | PyVal.float _ => "float"
  | PyVal.str _ => "str"
  | PyVal.list _ => "list"

/-- Python `len()`: defined for `str` and `list`, a `TypeError` otherwise. -/
def pyLen : PyVal → Except PyErr Nat
  | PyVal.str s => Except.ok s.length
  | PyVal.list xs => Except.ok xs.length
  | v => Except.error (PyErr.typeError
      ("object of type " ++ pyTypeName v ++ " has no len()"))

/-- Whether `len()` is defined — membership in `collections.Sized`. -/
def pySized : PyVal → Bool
  | PyVal.str _ => true
  | PyVal.list _ => true
  | _ => false

/-- Numpy `np.isscalar`: true for numbers and strings, false for lists. -/
def pyIsScalar : PyVal → Bool
  | PyVal.list _ => false
  | _ => true

/-- Iterating a Python value (for `zip`): lists yield their items, strings
their characters, numbers raise `TypeError`. -/
def pyElems : PyVal → Except PyErr (List PyVal)
  | PyVal.list xs => Except.ok xs
  | PyVal.str s => Except.ok (s.toList.map (fun c => PyVal.str (String.mk [c])))
  | v => Except.error (PyErr.typeError
      ("argument of type " ++ pyTypeName v ++ " is not iterable"))

/-- Python `v > 0`: defined for numbers, a `TypeError` otherwise. -/
def pyGtZero : PyVal → Except PyErr Bool
  | PyVal.int n => Except.ok (decide (0 < n))
  | PyVal.float q => Except.ok (decide (0 < q))
  | v => Except.error (PyErr.typeError
      ("not supported between instances of " ++ pyTypeName v ++ " and int"))

/-- Layers of a dynamically typed `custom_fc_model` call; units, activations
and dropout rates are arbitrary Python values. -/
inductive DynLayer where
  | dense : PyVal → PyVal → Option (List Int) → DynLayer
  | dropout : PyVal → DynLayer

/-- Embedding of `custom_fc_model` (`models.py` lines 27-81) on dynamically typed
arguments, following the Python evaluation order: the string-activation
broadcast (which calls `len(layer_definitions)` only when `activations` is a
string), the scalar-dropout broadcast (which calls `len(activations)`), then
`zip(range(len(layer_definitions)), ...)` and the layer loop. -/
def custom_fc_model_dyn (input_dim : Int)
    (layer_definitions activations dropouts : PyVal) :
    Except PyErr (List DynLayer) := do
  let input_shape := [input_dim]
  let activations ← match activations with
    | PyVal.str s => do
        let n ← pyLen layer_definitions
        pure (PyVal.list (List.replicate n (PyVal.str s)))
    | a => pure a
  let dropouts ← if pyIsScalar dropouts then do
        let n ← pyLen activations
        pure (PyVal.list (List.replicate n dropouts))
      else pure dropouts
  let n ← pyLen layer_definitions
  let lds ← pyElems layer_definitions
  let acts ← pyElems activations
  let drops ← pyElems dropouts
  (zip4 (List.range n) lds acts drops).foldlM
    (fun model r => do
      let model := if r.1 = 0
        then model ++ [DynLayer.dense r.2.1 r.2.2.1 (some input_shape)]
        else model ++ [DynLayer.dense r.2.1 r.2.2.1 none]
      let gz ← pyGtZero r.2.2.2
      pure (if gz then model ++ [DynLayer.dropout r.2.2.2] else model)) []

/-- C9: `custom_fc_model` is partial in `layer_definitions` — whenever that
argument does not support `len()` (for example the integer `1` passed by the
repository's own test) the call raises `TypeError` before any layer is added,
so no model is constructed. -/
theorem custom_fc_model_dyn_typeerror (input_dim : Int)
    (layer_definitions activations dropouts : PyVal)
    (hs : pySized layer_definitions = false) :
    ∃ m, custom_fc_model_dyn input_dim layer_definitions activations dropouts =
      Except.error (PyErr.typeError m) := by
  cases layer_definitions with
  | int k =>
    cases activations with
    | str s => exact ⟨_, rfl⟩
    | int a =>
      cases hsc : pyIsScalar dropouts <;>
        simp [custom_fc_model_dyn, hsc, pyLen, pyElems] <;>
        exact ⟨_, rfl⟩
    | float a =>
      cases hsc : pyIsScalar dropouts <;>
        simp [custom_fc_model_dyn, hsc, pyLen, pyElems] <;>
        exact ⟨_, rfl⟩
    | list a =>
      cases hsc : pyIsScalar dropouts <;>
        simp [custom_fc_model_dyn, hsc, pyLen, pyElems] <;>
        exact ⟨_, rfl⟩
  | float k =>
    cases activations with
    | str s => exact ⟨_, rfl⟩
    | int a =>
      cases hsc : pyIsScalar dropouts <;>
        simp [custom_fc_model_dyn, hsc, pyLen, pyElems] <;>
        exact ⟨_, rfl⟩
    | float a =>
      cases hsc : pyIsScalar dropouts <;>
        simp [custom_fc_model_dyn, hsc, pyLen, pyElems] <;>
        exact ⟨_, rfl⟩
    | list a =>
      cases hsc : pyIsScalar dropouts <;>
        simp [custom_fc_model_dyn, hsc, pyLen, pyElems] <;>
        exact ⟨_, rfl⟩
  | str s => simp [pySized] at hs
  | list l => simp [pySized] at hs

/-- Witness for C9: the exact invocation of the repository's test,
`custom_fc_model(16, 1, [1.0, 0.5, 2])` with the default `dropouts=0.0`. -/
theorem custom_fc_model_dyn_typeerror_witness :
    pySized (PyVal.int 1) = false ∧
    ∃ m, custom_fc_model_dyn 16 (PyVal.int 1)
        (PyVal.list [PyVal.float 1, PyVal.float (1/2), PyVal.int 2])
        (PyVal.float 0) =
      Except.error (PyErr.typeError m) :=
  ⟨rfl,
    custom_fc_model_dyn_typeerror 16 (PyVal.int 1)
      (PyVal.list [PyVal.float 1, PyVal.float (1/2), PyVal.int 2])
      (PyVal.float 0) rfl⟩
